import Mathlib

/-!
Verification development for the ODNP hydration calculator
(`odnpLab/hydration/hydration.py`).

The numeric pipeline is embedded over `ℚ` (exact arithmetic).  The two
external scipy solvers (`scipy.optimize.least_squares` and
`scipy.optimize.root_scalar`) are black-box library calls; they are
modelled as an explicit `SolverOracle` parameter, so every statement about
the surrounding pipeline holds for an arbitrary deterministic solver.
`numpy.polyfit` is embedded by its mathematical contract: the unique
least-squares polynomial fit, computed here in closed form via the normal
equations (the rank-deficient case, where the fit is not unique, is
modelled as undefined).  Python division is total on `ℚ` with `x / 0 = 0`;
no theorem below depends on that convention except where explicitly
discussed.  The FFHS spectral-density function used by the correlation-time
root solve is embedded over `ℝ` with `Real.sqrt` (the source uses
`np.sqrt`; `z ** (3/2)` and `z ** (5/2)` are `z·√z` and `z²·√z` on the
nonnegative domain of use).
-/

/-- A numpy array as the validation code sees it: a number of dimensions
and the flattened data.  `size` is the total element count (`np.size`).
Only 0- and 1-dimensional arrays reach the numeric stages. -/
structure NpArray where
  ndim : ℕ
  data : List ℚ
deriving DecidableEq, Repr

def NpArray.size (a : NpArray) : ℕ := a.data.length

/-- Modelled from the spec: the `HydrationParameter` configuration class
(`odnpLab/hydration/hydration_parameter.py` is not in `src/`; only a use
of it and its field accesses appear there).  The fields are exactly those the
calculator reads: `hp.field`, `hp.slC`, `hp.T10`, `hp.T100`, `hp.smaxMod`,
`hp.fitopt`, `hp.ksig_bulk`, `hp.k_low_bulk`, `hp.tcorr_bulk`, `hp.dH2O`,
`hp.dSL`. -/
structure HydrationParameter where
  field : ℚ
  slC : ℚ
  T10 : ℚ
  T100 : ℚ
  smaxMod : String
  fitopt : String
  ksig_bulk : ℚ
  k_low_bulk : ℚ
  tcorr_bulk : ℚ
  dH2O : ℚ
  dSL : ℚ
deriving DecidableEq, Repr

/-- Modelled from the spec: the spec-level configuration names
`t1_interp_method ∈ {linear, second_order}` correspond to the `fitopt`
strings the calculator branches on (`'linear'` and `'2ord'`); the missing
parameter class carries the translation. -/
def fitoptOfInterpMethod (m : String) : String :=
  if m = "second_order" then "2ord" else m

/-- The result mapping assembled at the end of `_calcODNP` (source lines
224-235).  Every stored value is a scalar: in particular the value stored
under the key `'k_sigma_array'` is the scalar `ksig_smax / s_max`, the
same expression as `k_sigma` (`ksig_smax` is `result.x[0]` of the
least-squares call, a scalar). -/
structure HydrationResults where
  k_sigma_array : ℚ
  k_sigma : ℚ
  ksigma_kbulk_invratio : ℚ
  k_rho : ℚ
  k_low : ℚ
  klow_klow_bulk_ratio : ℚ
  ksi : ℚ
  tcorr : ℚ
  tcorr_tcorr_bulk_ratio : ℚ
  dLocal : ℚ
deriving DecidableEq, Repr

/-- The two external scipy solvers as black-box deterministic functions.
`lsq x0 power ksig_sp` stands for
`optimize.least_squares(residual, x0, args=(power, ksig_sp)).x`, which by
the library contract has the shape of `x0`, i.e. two scalars
`(ksig_smax, p_12)`.  `root ksi omega_e omega_H` stands for the value
returned by a CONVERGED brentq solve in `getTcorr`: this models only the
success path of the solve.  In the source, `getTcorr` can also raise
(brentq's equal-sign bracket `ValueError`, e.g. when `ksi` is an IEEE
infinity or NaN, and `assert result.converged`), aborting construction
before the result mapping is built; a statement that hinges on that
failure path is made about the pipeline prefix `calcODNPpreRoot` below,
which stops just before the `getTcorr` call, rather than about this
success-path model. -/
structure SolverOracle where
  lsq : ℚ × ℚ → List ℚ → List ℚ → ℚ × ℚ
  root : ℚ → ℚ → ℚ → ℚ

/-- `np.polyval(p, x)` with coefficients highest-degree first (Horner). -/
def polyval (p : List ℚ) (x : ℚ) : ℚ :=
  p.foldl (fun acc c => acc * x + c) 0

/-- `np.polyfit(xs, ys, 1)`: the least-squares straight line through the
points `xs.zip ys`, in closed form from the normal equations.  Returns
`[a, b]` (highest degree first), or `none` when the normal determinant is
zero (fewer than two distinct abscissae), where the least-squares problem
has no unique solution. -/
def polyfit1 (xs ys : List ℚ) : Option (List ℚ) :=
  let pts := xs.zip ys
  let n : ℚ := pts.length
  let sx := (pts.map fun q => q.1).sum
  let sy := (pts.map fun q => q.2).sum
  let sxx := (pts.map fun q => q.1 * q.1).sum
  let sxy := (pts.map fun q => q.1 * q.2).sum
  let d := n * sxx - sx * sx
  if d = 0 then none
  else some [(n * sxy - sx * sy) / d, (sxx * sy - sx * sxy) / d]

/-- `np.polyfit(xs, ys, 2)`: the least-squares parabola through
`xs.zip ys`, solved from the 3×3 normal equations by Cramer's rule.
Returns `[c2, c1, c0]` (highest degree first), or `none` when the normal
determinant is zero. -/
def polyfit2 (xs ys : List ℚ) : Option (List ℚ) :=
  let pts := xs.zip ys
  let s0 : ℚ := pts.length
  let s1 := (pts.map fun q => q.1).sum
  let s2 := (pts.map fun q => q.1 ^ 2).sum
  let s3 := (pts.map fun q => q.1 ^ 3).sum
  let s4 := (pts.map fun q => q.1 ^ 4).sum
  let t0 := (pts.map fun q => q.2).sum
  let t1 := (pts.map fun q => q.1 * q.2).sum
  let t2 := (pts.map fun q => q.1 ^ 2 * q.2).sum
  let det := s4 * (s2 * s0 - s1 * s1) - s3 * (s3 * s0 - s1 * s2)
      + s2 * (s3 * s1 - s2 * s2)
  if det = 0 then none
  else
    let c2 := (t2 * (s2 * s0 - s1 * s1) - s3 * (t1 * s0 - s1 * t0)
        + s2 * (t1 * s1 - s2 * t0)) / det
    let c1 := (s4 * (t1 * s0 - s1 * t0) - t2 * (s3 * s0 - s1 * s2)
        + s2 * (s3 * t0 - t1 * s2)) / det
    let c0 := (s4 * (s2 * t0 - t1 * s1) - s3 * (s3 * t0 - t1 * s2)
        + t2 * (s3 * s1 - s2 * s2)) / det
    some [c2, c1, c0]

/-- `HydrationCalculator.__init__` validation (source lines 45-50): raise
if any input has `ndim > 1`, then if `T1.size != T1_power.size`, then if
`E.size != E_power.size`.  Returns the raised message, or `none` when the
inputs pass. -/
def validateShapes (T1 T1_power E E_power : NpArray) : Option String :=
  if T1.ndim > 1 ∨ T1_power.ndim > 1 ∨ E.ndim > 1 ∨ E_power.ndim > 1 then
    some "T1, T1_power, E and E_power must be 1 dimension"
  else if T1.size ≠ T1_power.size then
    some "T1 and T1_power must have same length"
  else if E.size ≠ E_power.size then
    some "E and E_power must have same length"
  else none

/-- `HydrationCalculator._setT1p` (source lines 62-100): interpolate the
T1 series to the enhancement powers under the selected `fitopt` model.
`'2ord'` uses `delT1w = T1p[-1] - T1p[0]` (order-dependent), a degree-2
power fit of `krp`, and the corresponding back-transform; `'linear'`
transforms T1, fits a straight line in power and back-transforms; any
other string raises `NotImplemented T1 fitopt`.  Degenerate polynomial
fits (no unique least-squares solution, e.g. on empty input, where numpy
raises) are reported as errors. -/
def setT1p (fitopt : String) (T1p T1power power : List ℚ)
    (T10 T100 slC : ℚ) : Except String (List ℚ) :=
  if fitopt = "2ord" then
    match T1p.getLast?, T1p.head? with
    | some tLast, some tFirst =>
      let delT1w := tLast - tFirst
      let T1w := T100
      let macroC := slC
      let kHH := ((1 / T10) - (1 / T1w)) / (macroC / 1e6)
      let krp := (T1p.zip T1power).map fun q =>
        ((1 / q.1) - (1 / (T1w + delT1w * q.2)) - kHH * (macroC / 1e6)) / (slC / 1e6)
      match polyfit2 T1power krp with
      | none => .error "polyfit: degenerate least-squares system"
      | some p =>
        let flinear := power.map (polyval p)
        .ok ((power.zip flinear).map fun q =>
          1 / ((slC / 1e6) * q.2 + 1 / (T1w + delT1w * q.1) + kHH * (macroC / 1e6)))
    | _, _ => .error "index out of range"
  else if fitopt = "linear" then
    let linearT1 := T1p.map fun t => 1 / ((1 / t) - (1 / T10) + (1 / T100))
    match polyfit1 T1power linearT1 with
    | none => .error "polyfit: degenerate least-squares system"
    | some p =>
      let flinear := power.map (polyval p)
      .ok (flinear.map fun f => f / (1 + (f / T10) - (f / T100)))
  else .error "NotImplemented T1 fitopt"

/-- The saturation-factor selection of `_calcODNP` (source lines 124-132):
`s_max = 1` when `smaxMod == 'tethered'`, otherwise the free-spin-probe
formula.  There is no error branch: every non-`'tethered'` string takes
the free branch. -/
def smaxOf (smaxMod : String) (slC : ℚ) : ℚ :=
  if smaxMod = "tethered" then 1
  else 1 - (2 / (3 + (3 * (slC * 1e-6 * 198.7))))

/-- `HydrationCalculator._calcODNP` (source lines 102-235): the derived
relaxivities, coupling factor, correlation time and result assembly.
`Ep` is the enhancement array, `T1p` the interpolated `T1fit` array,
`power` the enhancement powers.  Every division is unguarded, exactly as
in the source.  This definition models the run in which both solver calls
succeed (the `tcorr` field records the root of a converged solve); the
modelled failing step of the stage itself is `max(power)` on an empty
power array.  In the source, the `getTcorr` call at line 184 can
additionally abort the run (brentq bracket error, convergence assert);
for statements about what happens up to and excluding that call, see
`calcODNPpreRoot`. -/
def calcODNP (oracle : SolverOracle) (Ep T1p power : List ℚ)
    (hp : HydrationParameter) : Except String HydrationResults :=
  let s_max := smaxOf hp.smaxMod hp.slC
  let omega_e := (1.76085963023e5 * 1e-6) * (hp.field / 1000)
  let omega_H := (267.52218744 * 1e-6) * (hp.field / 1000)
  let wRatio := (omega_e / (2 * 3.14159)) / (omega_H / (2 * 3.14159))
  let ksig_sp := (Ep.zip T1p).map fun q => (1 - q.1) / (hp.slC * wRatio * q.2)
  match power.max? with
  | none => .error "max() arg is an empty sequence"
  | some mx =>
    let fitted := oracle.lsq (75, mx / 2) power ksig_sp
    let ksig_smax := fitted.1
    let k_sigma := ksig_smax / s_max
    let k_rho := ((1 / hp.T10) - (1 / hp.T100)) / hp.slC
    let ksi := k_sigma / k_rho
    let tcorr := oracle.root ksi omega_e omega_H
    let dLocal := (hp.tcorr_bulk / tcorr) * (hp.dH2O + hp.dSL)
    let k_low := ((5 * k_rho) - (7 * k_sigma)) / 3
    .ok
      { k_sigma_array := ksig_smax / s_max
        k_sigma := k_sigma
        ksigma_kbulk_invratio := 1 / (k_sigma / hp.ksig_bulk)
        k_rho := k_rho
        k_low := k_low
        klow_klow_bulk_ratio := k_low / hp.k_low_bulk
        ksi := ksi
        tcorr := tcorr
        tcorr_tcorr_bulk_ratio := tcorr / hp.tcorr_bulk
        dLocal := dLocal }

/-- `HydrationCalculator.__init__` (source lines 35-60): validate the
shapes, then run `_setT1p`, then `_calcODNP`, all synchronously during
construction.  No sorting of any series takes place anywhere. -/
def hydrationInit (oracle : SolverOracle) (T1 T1_power E E_power : NpArray)
    (hp : HydrationParameter) : Except String HydrationResults :=
  match validateShapes T1 T1_power E E_power with
  | some e => .error e
  | none =>
    match setT1p hp.fitopt T1.data T1_power.data E_power.data hp.T10 hp.T100 hp.slC with
    | .error e => .error e
    | .ok T1fit => calcODNP oracle E.data T1fit E_power.data hp

/-- A concrete solver instantiation used to evaluate the pipeline at
concrete inputs: the least-squares call returns its initial guess and the
root solve returns its target value. -/
def trivOracle : SolverOracle :=
  { lsq := fun x0 _ _ => x0, root := fun k _ _ => k }

/-- A concrete solver instantiation whose least-squares result depends on
the data series it is fitting (it reports the first residual target),
used to exhibit order sensitivity of the pipeline. -/
def headOracle : SolverOracle :=
  { lsq := fun x0 _ ksig_sp => (ksig_sp.headD 0, x0.2), root := fun k _ _ => k }

/-- The linear T1-power model exactly as the specification words it
(spec section 4.2): transform each observed T1 by
`u = 1/((1/T1) - (1/T10) + (1/T100))`, fit `u` linearly in power
(`u = a·P + b`), evaluate the fit at each enhancement power to get
`flinear`, and back-transform `T1fit = flinear/(1 + flinear/T10 -
flinear/T100)`.  Stated for comparison against the source embedding
`setT1p "linear"`. -/
def specLinearT1fit (T1 T1power Epower : List ℚ) (T10 T100 : ℚ) :
    Option (List ℚ) :=
  let u := T1.map fun t => 1 / ((1 / t) - (1 / T10) + (1 / T100))
  match polyfit1 T1power u with
  | none => none
  | some ab =>
    let a := ab.headD 0
    let b := (ab.drop 1).headD 0
    some (Epower.map fun P =>
      let flinear := a * P + b
      flinear / (1 + (flinear / T10) - (flinear / T100)))

/-- The FFHS spectral-density rational approximant `J(z)` of `get_ksi`
(source lines 267-271): numerator `1 + (5√2/8)√z + z/4` over denominator
`1 + √(2z) + z + (√2/3)z^(3/2) + (16/81)z² + (4√2/81)z^(5/2) + z³/81`,
with `z^(3/2) = z·√z` and `z^(5/2) = z²·√z` on the nonnegative domain. -/
noncomputable def Jffhs (z : ℝ) : ℝ :=
  (1 + (((5 * Real.sqrt 2) / 8) * Real.sqrt z) + (z / 4)) /
    (1 + Real.sqrt (2 * z) + z + ((Real.sqrt 2 / 3) * (z * Real.sqrt z))
      + ((16 / 81) * z ^ 2) + (((4 * Real.sqrt 2) / 81) * (z ^ 2 * Real.sqrt z))
      + (z ^ 3 / 81))

/-- `get_ksi` (source lines 249-295), the forward spectral-density
function inverted by `getTcorr`: reduced variables
`zdiff = (omega_e - omega_H)·tcorr`, `zsum = (omega_e + omega_H)·tcorr`,
`zH = omega_H·tcorr`, then
`ksi = (6·J_diff - J_sum)/(6·J_diff + 3·J_H + J_sum)`.  The source sets
`option = 0`, so the rotational-contribution branch (`option == 1`) is
dead code and `np.real` is the identity on these real values. -/
noncomputable def get_ksi (tcorr omega_e omega_H : ℝ) : ℝ :=
  let zdiff := (omega_e - omega_H) * tcorr
  let zsum := (omega_e + omega_H) * tcorr
  let zH := omega_H * tcorr
  let Jdiff := Jffhs zdiff
  let Jsum := Jffhs zsum
  let JH := Jffhs zH
  ((6 * Jdiff) - Jsum) / ((6 * Jdiff) + (3 * JH) + Jsum)

/-- The defining property of the value returned by the brentq root solve
in `getTcorr` (source lines 297-305), in idealized real semantics: a
converged bracketed solve over `[1, 1e5]` returns a point of the bracket
where the residual `get_ksi tcorr - ksi` vanishes.  `assert
result.converged` makes non-convergence fatal, so a returned value always
satisfies this. -/
def IsTcorrRoot (ksi omega_e omega_H r : ℝ) : Prop :=
  1 ≤ r ∧ r ≤ 1e5 ∧ get_ksi r omega_e omega_H - ksi = 0

/-- The scenario configuration of spec section 8: `T10 = 1.0`,
`T100 = 2.5`, `slC = 200`, `field = 348.5`, `smax_model = tethered`,
`t1_interp_method = linear` (bulk reference constants are arbitrary
positive values; no claim depends on them). -/
def scenHp : HydrationParameter :=
  { field := 348.5, slC := 200, T10 := 1, T100 := 2.5,
    smaxMod := "tethered", fitopt := "linear",
    ksig_bulk := 95.4, k_low_bulk := 366, tcorr_bulk := 54,
    dH2O := 2.3e-9, dSL := 4.1e-10 }

/-- Scenario T1 series `[1.0, 0.9, 0.8]`. -/
def scenT1 : NpArray := ⟨1, [1, 9/10, 4/5]⟩

/-- Scenario T1 power series `[0, 1, 2]`. -/
def scenT1power : NpArray := ⟨1, [0, 1, 2]⟩

/-- Scenario enhancement series `[1.0, 0.5, 0.0]`. -/
def scenE : NpArray := ⟨1, [1, 1/2, 0]⟩

/-- Scenario enhancement power series `[0, 1, 2]`. -/
def scenEpower : NpArray := ⟨1, [0, 1, 2]⟩

/-- The scenario configuration with an unrecognized `smax_model` string. -/
def hpGarbage : HydrationParameter := { scenHp with smaxMod := "garbage" }

/-- The scenario configuration with the second-order T1 model selected. -/
def hp2ord : HydrationParameter := { scenHp with fitopt := "2ord" }

/-- The scenario configuration with `T10 = T100 = 1`, which makes the
self-relaxivity denominator `k_rho` equal to zero. -/
def hpKrhoZero : HydrationParameter := { scenHp with T10 := 1, T100 := 1 }

/-- The prefix of `_calcODNP` before the `getTcorr` call (source lines
116-182): the saturation-fit input, the least-squares call, and all
derived-relaxivity divisions — `k_sigma = ksig_smax / s_max`,
`k_rho = (1/T10 - 1/T100)/slC`, `ksi = k_sigma / k_rho`.  Returns the
computed `(s_max, k_sigma, k_rho, ksi)`.  The stage contains no branch
testing `s_max` or `k_rho`: its only error exit is `max()` on an empty
power array, so a zero denominator never makes this stage fail — the
quotient is computed unguarded (IEEE `inf`/`NaN` in the floating-point
source; the totalized `x / 0 = 0` in this `ℚ` embedding) and handed to
the root solve at line 184, where the source then aborts (brentq bracket
sign-check `ValueError` for an infinite or NaN `ksi`). -/
def calcODNPpreRoot (lsq : ℚ × ℚ → List ℚ → List ℚ → ℚ × ℚ)
    (Ep T1p power : List ℚ) (hp : HydrationParameter) :
    Except String (ℚ × ℚ × ℚ × ℚ) :=
  let s_max := smaxOf hp.smaxMod hp.slC
  let omega_e := (1.76085963023e5 * 1e-6) * (hp.field / 1000)
  let omega_H := (267.52218744 * 1e-6) * (hp.field / 1000)
  let wRatio := (omega_e / (2 * 3.14159)) / (omega_H / (2 * 3.14159))
  let ksig_sp := (Ep.zip T1p).map fun q => (1 - q.1) / (hp.slC * wRatio * q.2)
  match power.max? with
  | none => .error "max() arg is an empty sequence"
  | some mx =>
    let fitted := lsq (75, mx / 2) power ksig_sp
    let ksig_smax := fitted.1
    let k_sigma := ksig_smax / s_max
    let k_rho := ((1 / hp.T10) - (1 / hp.T100)) / hp.slC
    let ksi := k_sigma / k_rho
    .ok (s_max, k_sigma, k_rho, ksi)

/-- Helper: the `'linear'` branch of `setT1p`, with the string
dispatching reduced away. -/
theorem setT1p_linear_eq (T1p T1power power : List ℚ) (T10 T100 slC : ℚ) :
    setT1p "linear" T1p T1power power T10 T100 slC =
      match polyfit1 T1power (T1p.map fun t => 1 / ((1 / t) - (1 / T10) + (1 / T100))) with
      | none => .error "polyfit: degenerate least-squares system"
      | some p =>
        .ok ((power.map (polyval p)).map fun f =>
          f / (1 + (f / T10) - (f / T100))) := by
  unfold setT1p
  rw [if_neg (by decide : ¬("linear" : String) = "2ord"), if_pos rfl]

/-- Helper: the straight-line least-squares fit depends on the point list
only through its multiset: permuting the points leaves `polyfit1`
unchanged. -/
theorem polyfit1_perm {xs ys xs' ys' : List ℚ}
    (h : (xs.zip ys).Perm (xs'.zip ys')) : polyfit1 xs ys = polyfit1 xs' ys' := by
  simp only [polyfit1]
  rw [h.length_eq, (h.map fun q => q.1).sum_eq, (h.map fun q => q.2).sum_eq,
    (h.map fun q => q.1 * q.1).sum_eq, (h.map fun q => q.1 * q.2).sum_eq]

/-- C1: the value stored under the key `'k_sigma_array'` is NOT an array
of the same length as `E`; it is the scalar `ksig_smax / s_max`, the very
same expression stored under `'k_sigma'` (source lines 172 and 225):
whenever construction succeeds, the two entries of the result mapping are
equal scalars, for every input and every solver behavior. -/
theorem C1_ksigma_array_is_the_scalar_ksigma (oracle : SolverOracle)
    (T1 T1_power E E_power : NpArray) (hp : HydrationParameter) :
    (hydrationInit oracle T1 T1_power E E_power hp).toOption.map
        HydrationResults.k_sigma_array
      = (hydrationInit oracle T1 T1_power E E_power hp).toOption.map
        HydrationResults.k_sigma := by
  unfold hydrationInit
  split
  · rfl
  · split
    · rfl
    · unfold calcODNP
      split
      · rfl
      · rfl

/-- C2 (counterexample): with the unrecognized string `"garbage"` as
`smax_model`, construction does not fail: the calculator runs to
completion (the free-spin branch is silently selected), even though
`"garbage"` is neither `tethered` nor `free`. -/
theorem C2_counterexample :
    ((hydrationInit trivOracle scenT1 scenT1power scenE scenEpower
      hpGarbage).toOption.isSome = true)
      ∧ hpGarbage.smaxMod ≠ "tethered" ∧ hpGarbage.smaxMod ≠ "free" := by
  refine ⟨?_, by decide, by decide⟩
  norm_num [hydrationInit, validateShapes, setT1p, calcODNP, smaxOf, polyfit1,
    polyval, NpArray.size, hpGarbage, scenHp, scenT1, scenT1power, scenE,
    scenEpower, trivOracle, Except.toOption,
    (by decide : ("linear" : String) ≠ "2ord"),
    (by decide : ("garbage" : String) ≠ "tethered")]

/-- C2 (amended): only the T1-interpolation model selection is total with
an error branch: any `fitopt` outside `{2ord, linear}` raises
`NotImplemented T1 fitopt`.  The `smax_model` selection has no error
branch: `tethered` yields 1 and EVERY other string (recognized or not)
silently selects the free-spin-probe formula. -/
theorem C2_amended :
    (∀ (fitopt : String) (T1p T1power power : List ℚ) (T10 T100 slC : ℚ),
      fitopt ≠ "2ord" → fitopt ≠ "linear" →
      setT1p fitopt T1p T1power power T10 T100 slC
        = .error "NotImplemented T1 fitopt")
      ∧ (∀ (s : String) (slC : ℚ), s ≠ "tethered" →
        smaxOf s slC = 1 - (2 / (3 + (3 * (slC * 1e-6 * 198.7)))))
      ∧ (∀ slC : ℚ, smaxOf "tethered" slC = 1)
      ∧ (fitoptOfInterpMethod "second_order" = "2ord"
        ∧ fitoptOfInterpMethod "linear" = "linear") := by
  refine ⟨?_, ?_, ?_, by decide, by decide⟩
  · intro fitopt T1p T1power power T10 T100 slC h2 h1
    unfold setT1p
    rw [if_neg h2, if_neg h1]
  · intro s slC hs
    unfold smaxOf
    rw [if_neg hs]
  · intro slC
    rfl

/-- C2 (witness for the amended theorem): the unrecognized interpolation
option `"cubic"` is rejected, while the unrecognized saturation option
`"garbage"` silently computes the free-spin value. -/
theorem C2_amended_witness :
    setT1p "cubic" [] [] [] 1 1 1 = .error "NotImplemented T1 fitopt"
      ∧ smaxOf "garbage" 200 = 1 - (2 / (3 + (3 * ((200 : ℚ) * 1e-6 * 198.7))))
      ∧ smaxOf "tethered" 200 = 1 :=
  ⟨C2_amended.1 "cubic" [] [] [] 1 1 1 (by decide) (by decide),
    C2_amended.2.1 "garbage" 200 (by decide),
    C2_amended.2.2.1 200⟩

/-- C6: the saturation-factor selection (source lines 124-132): the
`tethered` model always yields `s_max = 1`; the `free` model yields
`1 - 2/(3 + 3·slC·1e-6·198.7)`, which is strictly below 1 whenever
`slC > 0`. -/
theorem C6_smax (slC : ℚ) :
    smaxOf "tethered" slC = 1
      ∧ smaxOf "free" slC = 1 - (2 / (3 + (3 * (slC * 1e-6 * 198.7))))
      ∧ (0 < slC → smaxOf "free" slC < 1) := by
  have hfree : smaxOf "free" slC = 1 - (2 / (3 + (3 * (slC * 1e-6 * 198.7)))) := by
    unfold smaxOf
    rw [if_neg (by decide : ¬("free" : String) = "tethered")]
  refine ⟨rfl, hfree, ?_⟩
  intro hpos
  rw [hfree]
  have hden : (0 : ℚ) < 3 + (3 * (slC * 1e-6 * 198.7)) := by positivity
  have : (0 : ℚ) < 2 / (3 + (3 * (slC * 1e-6 * 198.7))) := by positivity
  linarith

/-- C6 (witness): at the scenario concentration `slC = 200`. -/
theorem C6_smax_witness :
    smaxOf "tethered" 200 = 1
      ∧ smaxOf "free" 200 = 1 - (2 / (3 + (3 * ((200 : ℚ) * 1e-6 * 198.7))))
      ∧ smaxOf "free" 200 < 1 :=
  ⟨(C6_smax 200).1, (C6_smax 200).2.1, (C6_smax 200).2.2 (by norm_num)⟩

/-- C7: at the spec-section-8 scenario the code stores
`k_rho = (1/1.0 - 1/2.5)/200 = 3/1000`, dividing by `slC` as given in
micromolar, not `(1/1.0 - 1/2.5)/200e-6 = 3000` as the claim (and the
code's own `s^-1 M^-1` unit comment on source line 180) requires; the
`s_max = 1` part of the scenario does hold. -/
theorem C7_krho_not_in_molar_units :
    (hydrationInit trivOracle scenT1 scenT1power scenE scenEpower
        scenHp).toOption.map HydrationResults.k_rho = some (3 / 1000)
      ∧ ((1 / (1 : ℚ)) - 1 / 2.5) / 200e-6 = 3000
      ∧ ((3 : ℚ) / 1000) ≠ 3000
      ∧ smaxOf scenHp.smaxMod scenHp.slC = 1 := by
  refine ⟨?_, by norm_num, by norm_num, by decide⟩
  norm_num [hydrationInit, validateShapes, setT1p, calcODNP, smaxOf, polyfit1,
    polyval, NpArray.size, scenHp, scenT1, scenT1power, scenE, scenEpower,
    trivOracle, Except.toOption, (by decide : ("linear" : String) ≠ "2ord")]

/-- C4 (counterexample): a 0-dimensional (scalar) input is "not exactly
1-dimensional", yet the constructor's validation accepts it — the check
rejects only `ndim > 1`, so no input-shape error is raised, contradicting
the claim that every non-1-dimensional input fails. -/
theorem C4_counterexample :
    validateShapes ⟨0, [1]⟩ ⟨0, [1]⟩ ⟨0, [1]⟩ ⟨0, [1]⟩ = none
      ∧ (NpArray.mk 0 [1]).ndim ≠ 1 := by
  refine ⟨by decide, by decide⟩

/-- C4 (amended): construction raises an input-shape error exactly when
some input has `ndim > 1` (0-dimensional inputs pass) or the lengths
mismatch, and a raised validation error is the constructor's result
before any numeric stage runs. -/
theorem C4_amended (T1 T1_power E E_power : NpArray) :
    (validateShapes T1 T1_power E E_power = none ↔
      (T1.ndim ≤ 1 ∧ T1_power.ndim ≤ 1 ∧ E.ndim ≤ 1 ∧ E_power.ndim ≤ 1
        ∧ T1.size = T1_power.size ∧ E.size = E_power.size))
      ∧ (∀ (e : String) (oracle : SolverOracle) (hp : HydrationParameter),
        validateShapes T1 T1_power E E_power = some e →
        hydrationInit oracle T1 T1_power E E_power hp = .error e) := by
  constructor
  · unfold validateShapes
    split
    · rename_i h
      simp only [reduceCtorEq, false_iff]
      intro hc
      rcases h with h | h | h | h <;> omega
    · rename_i h
      push_neg at h
      split
      · rename_i hs
        simp only [reduceCtorEq, false_iff]
        intro hc
        exact hs hc.2.2.2.2.1
      · split
        · rename_i hs
          simp only [reduceCtorEq, false_iff]
          intro hc
          exact hs hc.2.2.2.2.2
        · rename_i h1 h2
          push_neg at h1 h2
          simp only [true_iff]
          exact ⟨by omega, by omega, by omega, by omega, h1, h2⟩
  · intro e oracle hp hv
    unfold hydrationInit
    rw [hv]

/-- C4 (witness for the amended theorem): a 2-dimensional T1 input is
rejected, and the constructor surfaces exactly the validation error. -/
theorem C4_amended_witness :
    hydrationInit trivOracle ⟨2, [1, 2]⟩ ⟨1, [1, 2]⟩ ⟨1, []⟩ ⟨1, []⟩ scenHp
      = .error "T1, T1_power, E and E_power must be 1 dimension" :=
  (C4_amended ⟨2, [1, 2]⟩ ⟨1, [1, 2]⟩ ⟨1, []⟩ ⟨1, []⟩).2
    "T1, T1_power, E and E_power must be 1 dimension" trivOracle scenHp (by decide)

/-- C9 (counterexample): with `T10 = T100` the self-relaxivity denominator
`k_rho` is exactly zero, yet the zero-denominator divisions do not make
the run fail with a domain error: the derived-relaxivity stage (source
lines 116-182, everything before the `getTcorr` call) completes with no
error, computing the unguarded quotient `ksi = k_sigma / k_rho`
(`75 / 0`: an IEEE infinity in the floating-point source, the totalized
`0` in `ℚ`) and handing it to the root solve — which is where the source
run then aborts, via brentq's equal-sign bracket `ValueError`, a
numerical failure of the root stage, not a domain error at the division.
The third conjunct checks that `[1, 9/10, 4/5]` is the actual `T1fit`
the pipeline produces at this input, so the evaluated prefix is the run's
real state. -/
theorem C9_counterexample :
    hpKrhoZero.T10 = hpKrhoZero.T100
      ∧ calcODNPpreRoot trivOracle.lsq scenE.data [1, 9/10, 4/5]
          scenEpower.data hpKrhoZero = .ok (1, 75, 0, (75 : ℚ) / 0)
      ∧ setT1p hpKrhoZero.fitopt scenT1.data scenT1power.data scenEpower.data
          hpKrhoZero.T10 hpKrhoZero.T100 hpKrhoZero.slC
        = .ok [1, 9/10, 4/5] := by
  refine ⟨by decide, ?_, ?_⟩
  · norm_num [calcODNPpreRoot, smaxOf, polyval, NpArray.size, hpKrhoZero,
      scenHp, scenE, scenEpower, trivOracle]
  · norm_num [setT1p, polyfit1, polyval, hpKrhoZero, scenHp, scenT1,
      scenT1power, scenEpower, (by decide : ("linear" : String) ≠ "2ord")]

/-- C9 (amended): the derived-relaxivity stage has no zero-denominator
guard at all: for every least-squares outcome and every configuration,
with a nonempty power array, the stage before the `getTcorr` call
succeeds — with no hypothesis whatsoever on `s_max` or `k_rho` being
nonzero — and when `T10 = T100` the `k_rho` it computes and divides by is
exactly `0`.  The divisions are unguarded (IEEE infinities/NaNs in the
floating-point source); the run then fails inside the root solve
(brentq's bracket sign-check, a numerical-non-convergence failure in the
spec's own taxonomy, not a domain error), so nothing reaches the results
mapping only because construction aborts there, not because any guard
reported the zero denominator. -/
theorem C9_amended (lsq : ℚ × ℚ → List ℚ → List ℚ → ℚ × ℚ)
    (Ep T1p power : List ℚ) (hp : HydrationParameter)
    (hne : power ≠ []) :
    (calcODNPpreRoot lsq Ep T1p power hp).toOption.isSome = true
      ∧ (hp.T10 = hp.T100 →
        (calcODNPpreRoot lsq Ep T1p power hp).toOption.map
          (fun q => q.2.2.1) = some 0) := by
  unfold calcODNPpreRoot
  cases hmax : power.max? with
  | none => exact absurd (List.max?_eq_none_iff.mp hmax) hne
  | some mx =>
    refine ⟨rfl, ?_⟩
    intro h
    simp [h, Except.toOption]

/-- C9 (witness for the amended theorem): the `k_rho = 0` configuration
passes through the whole derived-relaxivity stage with `k_rho` stored as
exactly `0`. -/
theorem C9_amended_witness :
    (calcODNPpreRoot trivOracle.lsq scenE.data [1, 9/10, 4/5]
        scenEpower.data hpKrhoZero).toOption.isSome = true
      ∧ (calcODNPpreRoot trivOracle.lsq scenE.data [1, 9/10, 4/5]
        scenEpower.data hpKrhoZero).toOption.map
          (fun q => q.2.2.1) = some 0 :=
  ⟨(C9_amended trivOracle.lsq scenE.data [1, 9/10, 4/5] scenEpower.data
      hpKrhoZero (by decide)).1,
    (C9_amended trivOracle.lsq scenE.data [1, 9/10, 4/5] scenEpower.data
      hpKrhoZero (by decide)).2 (by decide)⟩

/-- Helper: the straight-line fit is degenerate on a single point. -/
theorem polyfit1_single (x y : ℚ) : polyfit1 [x] [y] = none := by
  simp [polyfit1]

/-- Helper: the straight-line fit is degenerate on no points. -/
theorem polyfit1_nil : polyfit1 [] [] = none := by
  simp [polyfit1]

/-- C10: inputs that are all 0-dimensional scalars, or all 1-dimensional
and empty, pass the constructor's shape validation (it only rejects
`ndim > 1` and length mismatches); the failure then happens later in the
numeric pipeline — under the linear model at the degenerate polynomial
fit, and, once the fit stage is passed with an empty enhancement-power
array, at `max(power)` when `getksigsmax` forms its initial guess. -/
theorem C10_degenerate_inputs_pass_validation (oracle : SolverOracle)
    (T1 T1_power E E_power : NpArray) (hp : HydrationParameter) (t1fit : List ℚ)
    (hfam : (T1.ndim = 0 ∧ T1_power.ndim = 0 ∧ E.ndim = 0 ∧ E_power.ndim = 0
        ∧ T1.size = 1 ∧ T1_power.size = 1 ∧ E.size = 1 ∧ E_power.size = 1)
      ∨ (T1.ndim = 1 ∧ T1_power.ndim = 1 ∧ E.ndim = 1 ∧ E_power.ndim = 1
        ∧ T1.size = 0 ∧ T1_power.size = 0 ∧ E.size = 0 ∧ E_power.size = 0)) :
    validateShapes T1 T1_power E E_power = none
      ∧ (hp.fitopt = "linear" →
        hydrationInit oracle T1 T1_power E E_power hp
          = .error "polyfit: degenerate least-squares system")
      ∧ (E_power.data = [] →
        calcODNP oracle E.data t1fit E_power.data hp
          = .error "max() arg is an empty sequence") := by
  have hval : validateShapes T1 T1_power E E_power = none := by
    rcases hfam with ⟨h1, h2, h3, h4, h5, h6, h7, h8⟩ | ⟨h1, h2, h3, h4, h5, h6, h7, h8⟩ <;>
      · unfold validateShapes
        rw [if_neg (by omega), if_neg (by omega), if_neg (by omega)]
  have hpoly : polyfit1 T1_power.data
      (T1.data.map fun t => 1 / ((1 / t) - (1 / hp.T10) + (1 / hp.T100))) = none := by
    rcases hfam with ⟨_, _, _, _, h5, h6, _, _⟩ | ⟨_, _, _, _, h5, h6, _, _⟩
    · have h5' : T1.data.length = 1 := h5
      have h6' : T1_power.data.length = 1 := h6
      obtain ⟨y, hy⟩ := List.length_eq_one.mp h5'
      obtain ⟨x, hx⟩ := List.length_eq_one.mp h6'
      rw [hx, hy]
      simp only [List.map_cons, List.map_nil]
      exact polyfit1_single _ _
    · have h5' : T1.data.length = 0 := h5
      have h6' : T1_power.data.length = 0 := h6
      rw [List.length_eq_zero.mp h5', List.length_eq_zero.mp h6']
      simp only [List.map_nil]
      exact polyfit1_nil
  refine ⟨hval, ?_, ?_⟩
  · intro hlin
    unfold hydrationInit
    rw [hval, hlin, setT1p_linear_eq, hpoly]
  · intro hemp
    unfold calcODNP
    rw [hemp]
    rfl

/-- C10 (witness): the all-empty 1-dimensional input family at the
scenario configuration. -/
theorem C10_degenerate_inputs_witness :
    validateShapes ⟨1, []⟩ ⟨1, []⟩ ⟨1, []⟩ ⟨1, []⟩ = none
      ∧ hydrationInit trivOracle ⟨1, []⟩ ⟨1, []⟩ ⟨1, []⟩ ⟨1, []⟩ scenHp
        = .error "polyfit: degenerate least-squares system"
      ∧ calcODNP trivOracle ([] : List ℚ) [] [] scenHp
        = .error "max() arg is an empty sequence" := by
  have W := C10_degenerate_inputs_pass_validation trivOracle ⟨1, []⟩ ⟨1, []⟩
    ⟨1, []⟩ ⟨1, []⟩ scenHp [] (Or.inr (by decide))
  exact ⟨W.1, W.2.1 rfl, W.2.2 rfl⟩

/-- Helper: zipping the power column with the transformed value column is
the same as mapping the transform over the zipped (value, power) pairs. -/
theorem zip_map_of_pairs (f : ℚ → ℚ) (xs ys : List ℚ) :
    ys.zip (xs.map f) = (xs.zip ys).map fun q => (q.2, f q.1) := by
  induction xs generalizing ys with
  | nil => simp
  | cons a l ih =>
    cases ys with
    | nil => simp
    | cons b m => simp [ih]

/-- Helper: under the `'linear'` model, permuting the (T1, T1_power)
pairs does not change `setT1p`: the straight-line fit only depends on the
multiset of points. -/
theorem setT1p_linear_perm {T1A T1PA T1B T1PB : List ℚ}
    (h : (T1A.zip T1PA).Perm (T1B.zip T1PB))
    (power : List ℚ) (T10 T100 slC : ℚ) :
    setT1p "linear" T1A T1PA power T10 T100 slC
      = setT1p "linear" T1B T1PB power T10 T100 slC := by
  rw [setT1p_linear_eq, setT1p_linear_eq]
  have hfit : polyfit1 T1PA (T1A.map fun t => 1 / ((1 / t) - (1 / T10) + (1 / T100)))
      = polyfit1 T1PB (T1B.map fun t => 1 / ((1 / t) - (1 / T10) + (1 / T100))) := by
    apply polyfit1_perm
    rw [zip_map_of_pairs, zip_map_of_pairs]
    exact h.map _
  rw [hfit]

/-- C3 (counterexample): the orchestrator performs no sorting.  Under the
second-order T1 model (which reads `T1p[-1] - T1p[0]`), two inputs
holding the same set of (T1, T1_power) pairs and the same (E, E_power)
pairs, in different orders, produce different results — exhibited with a
concrete solver whose least-squares output depends on its data. -/
theorem C3_counterexample :
    (([(1 : ℚ), 9/10, 4/5].zip [(0 : ℚ), 1, 2]).Perm
        ([(4 : ℚ)/5, 9/10, 1].zip [(2 : ℚ), 1, 0]))
      ∧ (hydrationInit headOracle ⟨1, [1, 9/10, 4/5]⟩ ⟨1, [0, 1, 2]⟩
          ⟨1, [1/2, 0, -1]⟩ ⟨1, [1/2, 1, 3]⟩ hp2ord).toOption.map
          HydrationResults.k_sigma
        ≠ (hydrationInit headOracle ⟨1, [4/5, 9/10, 1]⟩ ⟨1, [2, 1, 0]⟩
          ⟨1, [1/2, 0, -1]⟩ ⟨1, [1/2, 1, 3]⟩ hp2ord).toOption.map
          HydrationResults.k_sigma := by
  constructor
  · show (([(1 : ℚ), 9/10, 4/5].zip [(0 : ℚ), 1, 2])).Perm
      (([(1 : ℚ), 9/10, 4/5].zip [(0 : ℚ), 1, 2])).reverse
    exact (List.reverse_perm _).symm
  · norm_num [hydrationInit, validateShapes, setT1p, calcODNP, smaxOf,
      polyfit1, polyfit2, polyval, NpArray.size, hp2ord, scenHp, headOracle,
      Except.toOption, List.getLast?,
      (by decide : ("tethered" : String) ≠ "free")]

/-- C3 (amended): the orchestrator does not sort either series; it uses
them in the order given, so reordering changes the data handed to the
fitting stages and, under the second-order model, even the fitted values
(see the counterexample).  What does hold: under the `'linear'` model,
permuting the (T1, T1_power) pairs (with the enhancement series held
fixed) leaves the entire result unchanged for every solver, because the
straight-line least-squares fit depends only on the multiset of points. -/
theorem C3_amended (oracle : SolverOracle) (T1A T1PA T1B T1PB E Ep : NpArray)
    (hp : HydrationParameter) (hfit : hp.fitopt = "linear")
    (hperm : (T1A.data.zip T1PA.data).Perm (T1B.data.zip T1PB.data))
    (hndA : T1A.ndim = T1B.ndim) (hndP : T1PA.ndim = T1PB.ndim)
    (hlA : T1A.size = T1PA.size) (hlB : T1B.size = T1PB.size) :
    hydrationInit oracle T1A T1PA E Ep hp
      = hydrationInit oracle T1B T1PB E Ep hp := by
  have hval : validateShapes T1A T1PA E Ep = validateShapes T1B T1PB E Ep := by
    unfold validateShapes
    rw [hndA, hndP, if_neg (not_not_intro hlA), if_neg (not_not_intro hlB)]
  have hst : setT1p hp.fitopt T1A.data T1PA.data Ep.data hp.T10 hp.T100 hp.slC
      = setT1p hp.fitopt T1B.data T1PB.data Ep.data hp.T10 hp.T100 hp.slC := by
    rw [hfit]
    exact setT1p_linear_perm hperm _ _ _ _
  unfold hydrationInit
  rw [hval, hst]

/-- C3 (witness for the amended theorem): reversing the scenario's
(T1, T1_power) pairs under the linear model leaves the result unchanged. -/
theorem C3_amended_witness :
    hydrationInit trivOracle scenT1 scenT1power scenE scenEpower scenHp
      = hydrationInit trivOracle ⟨1, [4/5, 9/10, 1]⟩ ⟨1, [2, 1, 0]⟩
        scenE scenEpower scenHp := by
  refine C3_amended trivOracle scenT1 scenT1power ⟨1, [4/5, 9/10, 1]⟩
    ⟨1, [2, 1, 0]⟩ scenE scenEpower scenHp rfl ?_ rfl rfl rfl rfl
  show (([(1 : ℚ), 9/10, 4/5].zip [(0 : ℚ), 1, 2])).Perm
    (([(1 : ℚ), 9/10, 4/5].zip [(0 : ℚ), 1, 2])).reverse
  exact (List.reverse_perm _).symm

/-- C5: under the `'linear'` interpolation model, whenever the fit
succeeds, the produced `T1fit` array is exactly what the spec's formula
chain prescribes — transform `u = 1/((1/T1) - (1/T10) + (1/T100))`,
least-squares line `u = a·P + b` in power, evaluation at each enhancement
power, back-transform `flinear/(1 + flinear/T10 - flinear/T100)` — and it
has the same length as the enhancement-power (hence enhancement) array. -/
theorem C5_linear_model (T1 T1power Epower : List ℚ) (T10 T100 slC : ℚ)
    (l : List ℚ)
    (h : setT1p "linear" T1 T1power Epower T10 T100 slC = .ok l) :
    specLinearT1fit T1 T1power Epower T10 T100 = some l
      ∧ l.length = Epower.length := by
  rw [setT1p_linear_eq] at h
  cases hp : polyfit1 T1power (T1.map fun t => 1 / ((1 / t) - (1 / T10) + (1 / T100))) with
  | none =>
    rw [hp] at h
    exact absurd h (by simp)
  | some p =>
    rw [hp] at h
    have hl : (Epower.map (polyval p)).map
        (fun f => f / (1 + (f / T10) - (f / T100))) = l := by
      injection h
    have hform : ∃ a b, p = [a, b] := by
      have hp' := hp
      simp only [polyfit1] at hp'
      split at hp'
      · exact absurd hp' (by simp)
      · injection hp' with hp''
        exact ⟨_, _, hp''.symm⟩
    obtain ⟨a, b, rfl⟩ := hform
    constructor
    · simp only [specLinearT1fit]
      rw [hp, ← hl, List.map_map]
      simp only [Option.some.injEq, List.headD_cons, List.drop_succ_cons,
        List.drop_zero]
      congr 1
      funext P
      simp only [Function.comp_apply, polyval, List.foldl_cons, List.foldl_nil]
      ring_nf
    · rw [← hl]
      simp

/-- C5 (witness): a concrete successful linear fit matches the spec's
formula chain and has the enhancement array's length. -/
theorem C5_linear_model_witness :
    specLinearT1fit [1, 9/10, 4/5] [0, 1, 2] [0, 1, 2] 1 (5/2)
        = some [593/595, 239/263, 363/457]
      ∧ ([(593 : ℚ)/595, 239/263, 363/457]).length
        = ([(0 : ℚ), 1, 2]).length := by
  refine C5_linear_model [1, 9/10, 4/5] [0, 1, 2] [0, 1, 2] 1 (5/2) 200
    [593/595, 239/263, 363/457] ?_
  norm_num [setT1p, polyfit1, polyval,
    (by decide : ("linear" : String) ≠ "2ord")]

/-- Helper: the FFHS approximant at `z = 0` is `1/1 = 1`. -/
theorem Jffhs_zero : Jffhs 0 = 1 := by
  simp [Jffhs]

/-- Helper: with both angular frequencies zero all three reduced
variables vanish and the forward coupling factor is `5/10 = 1/2`. -/
theorem get_ksi_at_zero : get_ksi 1 0 0 = 1 / 2 := by
  simp only [get_ksi, sub_zero, add_zero, zero_mul, mul_zero, zero_add,
    mul_one, zero_sub, neg_zero, Jffhs_zero]
  norm_num

/-- C8: the round trip between `getTcorr` and the forward
spectral-density function.  A converged bracketed root solve returns `r`
with `get_ksi r omega_e omega_H - ksi = 0` (the solver's defining
contract, idealized to exact arithmetic), so evaluating the forward FFHS
coupling-factor function at the returned `tcorr` with the same
frequencies reproduces the input `ksi` exactly — in particular within the
claimed `1e-6` relative tolerance. -/
theorem C8_roundtrip (ksi omega_e omega_H r : ℝ)
    (h : IsTcorrRoot ksi omega_e omega_H r) :
    get_ksi r omega_e omega_H = ksi
      ∧ |get_ksi r omega_e omega_H - ksi| ≤ 1e-6 := by
  have heq : get_ksi r omega_e omega_H = ksi := sub_eq_zero.mp h.2.2
  refine ⟨heq, ?_⟩
  rw [heq, sub_self, abs_zero]
  norm_num

/-- C8 (witness): `r = 1` is a root for `ksi = 1/2` at zero frequencies,
and the round trip reproduces `1/2`. -/
theorem C8_roundtrip_witness :
    IsTcorrRoot (1 / 2) 0 0 1 ∧ get_ksi 1 0 0 = 1 / 2 := by
  have hroot : IsTcorrRoot (1 / 2) 0 0 1 := by
    refine ⟨le_refl 1, by norm_num, ?_⟩
    rw [get_ksi_at_zero, sub_self]
  exact ⟨hroot, (C8_roundtrip (1 / 2) 0 0 1 hroot).1⟩
